import Mathlib

/-!
Shallow embedding of the windLA observation pipeline (the GET route of
src/unnamed/part_001): source-format probe, tabular and narrative parsing,
unit conversion and sentinel handling.  Numbers are modelled as exact
rationals; a JS NaN is modelled as `Option.none` at the point where it
arises.  The regex matchers below mirror the four concrete regexes of the
route with JS leftmost-match semantics.
-/

namespace WindLA

/-- JS whitespace characters (the ASCII subset relevant to trim and \s). -/
def isWsChar (c : Char) : Bool :=
  c == ' ' || c == '\t' || c == '\n' || c == '\r' || c == '\x0b' || c == '\x0c'

/-- Splits off the maximal leading run of characters satisfying p. -/
def takeRun (p : Char → Bool) : List Char → List Char × List Char
  | [] => ([], [])
  | c :: cs =>
    if p c then
      let r := takeRun p cs
      (c :: r.1, r.2)
    else ([], c :: cs)

def trimChars (cs : List Char) : List Char :=
  ((cs.dropWhile (fun c => isWsChar c)).reverse.dropWhile (fun c => isWsChar c)).reverse

/-- JS String.prototype.trim. -/
def jsTrim (s : String) : String := String.mk (trimChars s.toList)

/-- JS String.prototype.split of a string on the newline character:
    empty pieces are preserved. -/
def splitOnNlAux : List Char → List Char → List String
  | acc, [] => [String.mk acc.reverse]
  | acc, c :: rest =>
    if c == '\n' then String.mk acc.reverse :: splitOnNlAux [] rest
    else splitOnNlAux (c :: acc) rest

def splitLines (s : String) : List String := splitOnNlAux [] s.toList

/-- Maximal nonempty whitespace-free tokens of a line. -/
def wsTokensAux : List Char → List Char → List (List Char)
  | acc, [] => if acc.isEmpty then [] else [acc.reverse]
  | acc, c :: rest =>
    if isWsChar c then
      if acc.isEmpty then wsTokensAux [] rest
      else acc.reverse :: wsTokensAux [] rest
    else wsTokensAux (c :: acc) rest

def wsTokens (s : String) : List String := (wsTokensAux [] s.toList).map String.mk

def startsWs (s : String) : Bool :=
  match s.toList with
  | [] => false
  | c :: _ => isWsChar c

def endsWs (s : String) : Bool :=
  match s.toList.getLast? with
  | none => false
  | some c => isWsChar c

/-- JS String.prototype.split on the regex of one-or-more whitespace: the
    nonempty tokens, except that a leading or a trailing whitespace run
    contributes an extra empty field, and the empty string maps to [""]. -/
def jsSplitWs (s : String) : List String :=
  if s.toList.isEmpty then [""]
  else
    (if startsWs s then [""] else []) ++ wsTokens s ++ (if endsWs s then [""] else [])

def digitsVal (ds : List Char) : ℕ := ds.foldl (fun a c => 10 * a + (c.toNat - 48)) 0

/-- Exponent suffix of a JS float literal; a malformed suffix is ignored
    (parseFloat stops before it), contributing exponent 0. -/
def expVal (cs : List Char) : ℤ :=
  let p : ℤ × List Char :=
    match cs with
    | '-' :: r => (-1, r)
    | '+' :: r => (1, r)
    | r => (1, r)
  let ds := (takeRun (fun c => c.isDigit) p.2).1
  if ds.isEmpty then 0 else p.1 * (digitsVal ds : ℤ)

def pow10 : ℕ → ℚ
  | 0 => 1
  | n + 1 => 10 * pow10 n

def pow10Z : ℤ → ℚ
  | Int.ofNat n => pow10 n
  | Int.negSucc n => 1 / pow10 (n + 1)

/-- JS parseFloat, reading the longest decimal prefix exactly; none models
    NaN.  Infinity literals are not modelled (the data source never emits
    them). -/
def parseFloatQ (s : String) : Option ℚ :=
  let cs := s.toList.dropWhile (fun c => isWsChar c)
  let sg : ℚ × List Char :=
    match cs with
    | '-' :: r => (-1, r)
    | '+' :: r => (1, r)
    | r => (1, r)
  let ip := takeRun (fun c => c.isDigit) sg.2
  let fp : List Char × List Char :=
    match ip.2 with
    | '.' :: r => takeRun (fun c => c.isDigit) r
    | r => ([], r)
  if ip.1.isEmpty && fp.1.isEmpty then none
  else
    let mant : ℚ := (digitsVal ip.1 : ℚ) + (digitsVal fp.1 : ℚ) / pow10 fp.1.length
    let e : ℤ :=
      match fp.2 with
      | 'e' :: r => expVal r
      | 'E' :: r => expVal r
      | _ => 0
    some (sg.1 * mant * pow10Z e)

/-- JS String.prototype.padStart with length 2 and pad character '0'. -/
def padStart2 (s : String) : String :=
  if s.toList.length < 2 then String.mk (List.replicate (2 - s.toList.length) '0' ++ s.toList)
  else s

/-- JS Math.round: half rounds toward positive infinity. -/
def jsRound (q : ℚ) : ℤ := ⌊q + 1 / 2⌋

/-- Math.round (x * 10) / 10, the one-decimal rounding used throughout. -/
def round1 (q : ℚ) : ℚ := ((jsRound (q * 10) : ℤ) : ℚ) / 10

/-- The canonical output record (WindData of part_001). -/
structure WindData where
  datetime : String
  windDirection : ℚ
  windSpeed : ℚ
  gustSpeed : ℚ
  pressure : ℚ
  airTemp : ℚ
  waterTemp : ℚ
  deriving DecidableEq, Repr

/-- The failure outcomes of one invocation.  Thrown Error objects of the
    route are caught by its top-level handler and returned as a failure
    response; each constructor records which throw site produced it. -/
inductive ParseError where
  | fetchFailure : ParseError
  | notEnoughLines : ℕ → ParseError
  | structural : ℕ → ParseError
  | missingTimestamp : ParseError
  deriving DecidableEq, Repr

/-- The tabular branch (part_001 lines 95-128) applied to the whitespace
    split of the last data line.  The JS `|| 0` maps NaN to 0 and leaves any
    other number unchanged (a numeric 0 maps to 0 either way), so it is
    modelled by the none-branches; the ternary guard on the temperatures is
    falsy at both NaN and 0. -/
def tabularFromParts (parts : List String) : Except ParseError WindData :=
  if parts.length < 13 then .error (.structural parts.length)
  else
    let datetime :=
      parts.getD 0 "" ++ "-" ++ padStart2 (parts.getD 1 "") ++ "-" ++
        padStart2 (parts.getD 2 "") ++ "T" ++ padStart2 (parts.getD 3 "") ++ ":" ++
        padStart2 (parts.getD 4 "") ++ ":00Z"
    let windDirection : ℚ :=
      match parseFloatQ (parts.getD 5 "") with
      | none => 0
      | some v => v
    let windSpeed : ℚ :=
      match parseFloatQ (parts.getD 6 "") with
      | none => 0
      | some v => round1 (v * 1.944)
    let gustSpeed : ℚ :=
      match parseFloatQ (parts.getD 7 "") with
      | none => 0
      | some v => round1 (v * 1.944)
    let pressure : ℚ :=
      match parseFloatQ (parts.getD 12 "") with
      | none => 0
      | some v => v
    let airTemp : ℚ :=
      match parseFloatQ (parts.getD 13 "") with
      | none => 0
      | some v => if v = 0 then 0 else round1 (v * (9 / 5) + 32)
    let waterTemp : ℚ :=
      match parseFloatQ (parts.getD 14 "") with
      | none => 0
      | some v => if v = 0 then 0 else round1 (v * (9 / 5) + 32)
    .ok {
      datetime := datetime
      windDirection := if windDirection = 99 ∨ 999 ≤ windDirection then 0 else windDirection
      windSpeed := if 99 ≤ windSpeed then 0 else windSpeed
      gustSpeed := if 99 ≤ gustSpeed then 0 else gustSpeed
      pressure := if 9999 ≤ pressure then 0 else pressure
      airTemp := if 999 ≤ airTemp then 0 else airTemp
      waterTemp := if 999 ≤ waterTemp then 0 else waterTemp
    }

def containsSub (pat : List Char) : List Char → Bool
  | [] => pat.isEmpty
  | c :: rest => pat.isPrefixOf (c :: rest) || containsSub pat rest

/-- JS String.prototype.includes. -/
def containsStr (pat s : String) : Bool := containsSub pat.toList s.toList

/-- Greedy match of one-or-two digits followed by a literal slash, as the
    backtracking regex engine resolves it. -/
def twoOrOneDigitSlash (cs : List Char) : Option (List Char × List Char) :=
  match cs with
  | [] => none
  | d1 :: rest =>
    if d1.isDigit then
      match rest with
      | d2 :: rest2 =>
        if d2.isDigit then
          match rest2 with
          | '/' :: r => some ([d1, d2], r)
          | _ => none
        else
          match rest with
          | '/' :: r => some ([d1], r)
          | _ => none
      | [] => none
    else none

/-- One anchored attempt of the timestamp regex of line 142 — four digits,
    whitespace, GMT, whitespace, one-or-two digits, slash, one-or-two digits,
    slash, two digits — returning its four capture groups. -/
def gmtAt (cs : List Char) : Option (String × String × String × String) :=
  match cs with
  | a :: b :: c :: d :: rest =>
    if a.isDigit && b.isDigit && c.isDigit && d.isDigit then
      let w1 := takeRun (fun x => isWsChar x) rest
      if w1.1.isEmpty then none
      else
        match w1.2 with
        | 'G' :: 'M' :: 'T' :: r2 =>
          let w2 := takeRun (fun x => isWsChar x) r2
          if w2.1.isEmpty then none
          else
            match twoOrOneDigitSlash w2.2 with
            | none => none
            | some mo =>
              match twoOrOneDigitSlash mo.2 with
              | none => none
              | some dy =>
                match dy.2 with
                | y1 :: y2 :: _ =>
                  if y1.isDigit && y2.isDigit then
                    some (String.mk [a, b, c, d], String.mk mo.1, String.mk dy.1,
                      String.mk [y1, y2])
                  else none
                | _ => none
        | _ => none
    else none
  | _ => none

/-- Leftmost match of the timestamp regex in a line. -/
def gmtScan : List Char → Option (String × String × String × String)
  | [] => none
  | c :: rest =>
    match gmtAt (c :: rest) with
    | some r => some r
    | none => gmtScan rest

/-- One anchored attempt of the direction regex of line 156: an opening
    parenthesis, one-or-more digits, an optional degree sign, a closing
    parenthesis. -/
def dirAt (cs : List Char) : Option (List Char) :=
  match cs with
  | '(' :: r =>
    let ds := takeRun (fun c => c.isDigit) r
    if ds.1.isEmpty then none
    else
      match ds.2 with
      | ')' :: _ => some ds.1
      | '°' :: ')' :: _ => some ds.1
      | _ => none
  | _ => none

def dirScan : List Char → Option (List Char)
  | [] => none
  | c :: rest =>
    match dirAt (c :: rest) with
    | some r => some r
    | none => dirScan rest

/-- Shared tail of the speed and gust regexes: optional whitespace, a
    nonempty run of digits-or-dots (the capture), optional whitespace, the
    literal kt.  Shorter backtracking choices always leave a digit-or-dot
    facing the kt literal, so the greedy resolution is exact. -/
def ktTail (cs : List Char) : Option (List Char) :=
  let w := takeRun (fun c => isWsChar c) cs
  let cap := takeRun (fun c => c.isDigit || c == '.') w.2
  if cap.1.isEmpty then none
  else
    let w2 := takeRun (fun c => isWsChar c) cap.2
    match w2.2 with
    | 'k' :: 't' :: _ => some cap.1
    | _ => none

/-- One anchored attempt of the speed regex of line 162: a comma, then the
    kt tail. -/
def speedAt (cs : List Char) : Option (List Char) :=
  match cs with
  | ',' :: r => ktTail r
  | _ => none

def speedScan : List Char → Option (List Char)
  | [] => none
  | c :: rest =>
    match speedAt (c :: rest) with
    | some r => some r
    | none => speedScan rest

/-- One anchored attempt of the gust regex of line 171. -/
def gustAt (cs : List Char) : Option (List Char) :=
  match cs with
  | 'G' :: 'u' :: 's' :: 't' :: ':' :: r => ktTail r
  | _ => none

def gustScan : List Char → Option (List Char)
  | [] => none
  | c :: rest =>
    match gustAt (c :: rest) with
    | some r => some r
    | none => gustScan rest

/-- parseInt of the all-digits direction capture. -/
def narrDirOf (l : String) : ℚ :=
  match dirScan l.toList with
  | none => 0
  | some ds => (digitsVal ds : ℚ)

/-- parseFloat of the speed capture; an all-dots capture would be NaN in JS
    and is modelled as 0 here (no claim depends on it). -/
def narrSpeedOf (l : String) : ℚ :=
  match speedScan l.toList with
  | none => 0
  | some cap => (parseFloatQ (String.mk cap)).getD 0

def narrGustOf (l : String) : ℚ :=
  match gustScan l.toList with
  | none => 0
  | some cap => (parseFloatQ (String.mk cap)).getD 0

def narrWindLine (lines : List String) : Option String :=
  lines.find? (fun l => containsStr "Wind:" l)

def narrDirField (lines : List String) : ℚ :=
  match narrWindLine lines with
  | none => 0
  | some l => narrDirOf l

def narrSpeedField (lines : List String) : ℚ :=
  match narrWindLine lines with
  | none => 0
  | some l => narrSpeedOf l

def narrGustField (lines : List String) : ℚ :=
  match lines.find? (fun l => containsStr "Gust:" l) with
  | none => 0
  | some l => narrGustOf l

/-- Timestamp assembly of lines 144-148. -/
def composeGmt (time mo dy yr : String) : String :=
  "20" ++ yr ++ "-" ++ padStart2 mo ++ "-" ++ padStart2 dy ++ "T" ++
    String.mk (time.toList.take 2) ++ ":" ++ String.mk (time.toList.drop 2) ++ ":00Z"

/-- Lines 140-150: the first line containing GMT is matched against the
    timestamp regex; dateTime stays empty (none) if that line fails, even
    when a later line would match. -/
def narrTimestampOf (lines : List String) : Option String :=
  match lines.find? (fun l => containsStr "GMT" l) with
  | none => none
  | some l =>
    match gmtScan l.toList with
    | none => none
    | some (t, mo, dy, yr) => some (composeGmt t mo dy yr)

/-- The narrative branch of GET (part_001 lines 130-198). -/
def narrativeFromLines (lines : List String) : Except ParseError WindData :=
  match narrTimestampOf lines with
  | none => .error .missingTimestamp
  | some dt =>
    .ok {
      datetime := dt
      windDirection := narrDirField lines
      windSpeed := narrSpeedField lines
      gustSpeed := narrGustField lines
      pressure := 0
      airTemp := 0
      waterTemp := 0
    }

def lastLineOf (s : String) : String := (splitLines (jsTrim s)).getLast?.getD ""

/-- The structural probe of lines 36-43: more than one line after trimming
    and more than 10 fields in the whitespace split of the last line. -/
def probeTabular (t : String) : Bool :=
  decide (1 < (splitLines (jsTrim t)).length) &&
    decide (10 < (jsSplitWs (lastLineOf t)).length)

/-- Lines 82-198: trim, split into lines, the length-two check, then the
    chosen branch. -/
def runPath (isTab : Bool) (rawData : String) : Except ParseError WindData :=
  let lines := splitLines (jsTrim rawData)
  if lines.length < 2 then .error (.notEnoughLines lines.length)
  else if isTab then tabularFromParts (jsSplitWs (lastLineOf rawData))
  else narrativeFromLines lines

/-- Lines 49-62: the narrative fetch; an absent narrative candidate is the
    fetch failure surfaced by the route. -/
def narrativeEntry : Option String → Except ParseError WindData
  | none => .error .fetchFailure
  | some n => runPath false n

/-- One whole invocation on prefetched candidate texts (the pure entry point
    of spec section 6): probe the tabular candidate, then run the chosen
    branch. -/
def parseObservation : Option String → Option String → Except ParseError WindData
  | some t, n? => if probeTabular t then runPath true t else narrativeEntry n?
  | none, n? => narrativeEntry n?

/-- Modelled from the spec: the section 4.2 sentinel applied to the raw m/s
    value before conversion (the conversion constant is the code's, to
    isolate the ordering of sentinel check and conversion). -/
def specSentinelThenConvert (tok : String) : ℚ :=
  match parseFloatQ tok with
  | none => 0
  | some v => if 99 ≤ v then 0 else round1 (v * 1.944)

/-- Modelled from the spec: the section 4.4 m/s to kt conversion with the
    spec's constant 1.943844. -/
def specMsToKt (v : ℚ) : ℚ := round1 (v * 1.943844)

/-- The suffix after the first occurrence of pat, when pat occurs. -/
def afterSub (pat : List Char) : List Char → Option (List Char)
  | [] => none
  | c :: rest =>
    if pat.isPrefixOf (c :: rest) then some ((c :: rest).drop pat.length)
    else afterSub pat rest

def specKtAt (cs : List Char) : Option (List Char) :=
  let cap := takeRun (fun c => c.isDigit || c == '.') cs
  if cap.1.isEmpty then none
  else
    let w := takeRun (fun c => isWsChar c) cap.2
    match w.2 with
    | 'k' :: 't' :: _ => some cap.1
    | _ => none

def specKtScan : List Char → Option (List Char)
  | [] => none
  | c :: rest =>
    match specKtAt (c :: rest) with
    | some r => some r
    | none => specKtScan rest

/-- Modelled from the spec: the section 4.3 wind-speed sub-pattern, a token
    written value-then-kt found after the Wind: marker, no comma required by
    the spec's words. -/
def specWindSpeedAfterMarker (l : String) : Option ℚ :=
  match afterSub ("Wind:".toList) l.toList with
  | none => none
  | some r => (specKtScan r).map (fun cap => (parseFloatQ (String.mk cap)).getD 0)

/-- Tabular candidate with a header line and an 11-token data line: it
    passes the probe but fails the 13-column validation. -/
def tabC1 : String :=
  "YY MM DD hh mm WDIR WSPD GST WVHT DPD APD\n2025 11 16 23 50 180 4.1 7.2 2.3 7 5"

/-- The narrative text of spec scenario B. -/
def narrB : String := "2348 GMT 11/16/25\nWind: S (180°), 8.0 kt\nGust: 14.0 kt"

/-- The record scenario B promises. -/
def recB : WindData :=
  { datetime := "2025-11-16T23:48:00Z", windDirection := 180, windSpeed := 8,
    gustSpeed := 14, pressure := 0, airTemp := 0, waterTemp := 0 }

/-- The token list of spec scenario A's data line. -/
def partsA : List String :=
  ["2025", "11", "16", "23", "50", "180", "4.1", "7.2", "2.3", "7", "5", "190",
   "1015", "18.0", "16.5", "10", "10", "MM"]

/-- Scenario A's line with direction token 360. -/
def partsC2 : List String :=
  ["2025", "11", "16", "23", "50", "360", "4.1", "7.2", "2.3", "7", "5", "190",
   "1015", "18.0", "16.5"]

/-- Scenario A's line with wind-speed token 52.0 m/s (non-sentinel raw). -/
def partsC3 : List String :=
  ["2025", "11", "16", "23", "50", "180", "52.0", "7.2", "2.3", "7", "5", "190",
   "1015", "18.0", "16.5"]

/-- Scenario A's line with air-temperature token 0.0 degrees Celsius. -/
def partsC5 : List String :=
  ["2025", "11", "16", "23", "50", "180", "4.1", "7.2", "2.3", "7", "5", "190",
   "1015", "0.0", "16.5"]

/-- Scenario A's line with wind-speed token 25.747 m/s, where the constants
    1.944 and 1.943844 round to different decimals. -/
def partsC6 : List String :=
  ["2025", "11", "16", "23", "50", "180", "25.747", "7.2", "2.3", "7", "5", "190",
   "1015", "18.0", "16.5"]

/-- Narrative text whose first GMT-containing line fails the timestamp
    pattern while its second line matches it. -/
def narrC4 : String := "About GMT times\n2348 GMT 11/16/25"

/-- Narrative text whose Wind: line carries the speed token without the
    comma the code's regex requires. -/
def narrC9 : String := "2348 GMT 11/16/25\nWind: S (180°) 8.0 kt"

/-- Tabular candidate whose last line holds 10 tokens preceded by a space:
    the JS split yields 11 fields. -/
def tabC7 : String := "h1\n a b c d e f g h i j"

/-- Tabular candidate with a clean 5-token last line. -/
def tabC7w : String := "h1\nonly five tokens here now"

/-- A single line of 15 tokens. -/
def tabC10 : String := "2025 11 16 23 50 180 4.1 7.2 2.3 7 5 190 1015 18.0 16.5"

/-- A one-line narrative text whose only line is a valid GMT timestamp. -/
def narrC10 : String := "2348 GMT 11/16/25"

def linesB : List String := splitLines (jsTrim narrB)

/-- Proviso on a raw direction parse under which the range invariant holds. -/
def dirRawOk (o : Option ℚ) : Bool :=
  match o with
  | none => true
  | some v => decide ((0 ≤ v ∧ v < 360) ∨ v = 99 ∨ 999 ≤ v)

/-- Proviso on a raw speed parse: failure or a non-negative value. -/
def speedRawOk (o : Option ℚ) : Bool :=
  match o with
  | none => true
  | some v => decide (0 ≤ v)

lemma round1_nonneg {q : ℚ} (h : 0 ≤ q) : 0 ≤ round1 q := by
  unfold round1 jsRound
  have h0 : (0 : ℤ) ≤ ⌊q * 10 + 1 / 2⌋ := Int.le_floor.mpr (by push_cast; linarith)
  have h1 : (0 : ℚ) ≤ (⌊q * 10 + 1 / 2⌋ : ℚ) := by exact_mod_cast h0
  linarith

lemma le_round1 {q : ℚ} (n : ℤ) (h : (n : ℚ) ≤ q) : (n : ℚ) ≤ round1 q := by
  unfold round1 jsRound
  have h0 : (10 * n : ℤ) ≤ ⌊q * 10 + 1 / 2⌋ := Int.le_floor.mpr (by push_cast; linarith)
  have h1 : ((10 * n : ℤ) : ℚ) ≤ (⌊q * 10 + 1 / 2⌋ : ℚ) := by exact_mod_cast h0
  push_cast at h1
  linarith

lemma round1_ge99 {v : ℚ} (h : 99 ≤ v) : 99 ≤ round1 (v * 1.944) := by
  have h192 : ((192 : ℤ) : ℚ) ≤ v * 1.944 := by push_cast; linarith
  have h2 := le_round1 (192 : ℤ) h192
  push_cast at h2
  linarith

lemma round1_ge999 {c : ℚ} (h : 999 ≤ c) : 999 ≤ round1 (c * (9 / 5) + 32) := by
  have h' : ((1830 : ℤ) : ℚ) ≤ c * (9 / 5) + 32 := by push_cast; linarith
  have h2 := le_round1 (1830 : ℤ) h'
  push_cast at h2
  linarith

lemma probe_lines {t : String} (hp : probeTabular t = true) :
    1 < (splitLines (jsTrim t)).length ∧ 10 < (jsSplitWs (lastLineOf t)).length := by
  unfold probeTabular at hp
  simpa only [Bool.and_eq_true, decide_eq_true_eq] using hp

lemma dirRange (d : ℚ) (h : (0 ≤ d ∧ d < 360) ∨ d = 99 ∨ 999 ≤ d) :
    0 ≤ (if d = 99 ∨ 999 ≤ d then 0 else d) ∧
      (if d = 99 ∨ 999 ≤ d then 0 else d) < 360 := by
  split
  · norm_num
  · rename_i hc
    push_neg at hc
    rcases h with h | h | h
    · exact h
    · exact absurd h hc.1
    · exact absurd h (not_le.mpr hc.2)

lemma speedRange (s : ℚ) (h : 0 ≤ s) : 0 ≤ if 99 ≤ s then 0 else s := by
  split
  · norm_num
  · exact h

instance : DecidableEq (Except ParseError WindData)
  | Except.error e1, Except.error e2 =>
    if h : e1 = e2 then isTrue (congrArg Except.error h)
    else isFalse fun hh => h (Except.error.inj hh)
  | Except.error _, Except.ok _ => isFalse fun hh => Except.noConfusion hh
  | Except.ok _, Except.error _ => isFalse fun hh => Except.noConfusion hh
  | Except.ok a, Except.ok b =>
    if h : a = b then isTrue (congrArg Except.ok h)
    else isFalse fun hh => h (Except.ok.inj hh)

attribute [local semireducible] Rat.ofScientific Rat.mul Rat.inv Rat.add Rat.sub

/-- C1 (counterexample): a tabular candidate whose last line has 11 tokens
    passes the probe, and the resulting structural error is surfaced as the
    invocation's failure instead of being recovered by falling back to the
    narrative parser, whose result here would have been a success. -/
theorem c1_counterexample :
    parseObservation (some tabC1) (some narrB) = .error (.structural 11) ∧
      narrativeEntry (some narrB) = .ok recB :=
  ⟨by decide, by decide⟩

/-- C1 (amended): when the tabular candidate passes the probe but its last
    line splits into fewer than 13 fields, the structural error is surfaced
    as the invocation's failure; the narrative parser is never consulted. -/
theorem c1_amended (t : String) (n? : Option String)
    (hp : probeTabular t = true)
    (h13 : (jsSplitWs (lastLineOf t)).length < 13) :
    parseObservation (some t) n? = .error (.structural (jsSplitWs (lastLineOf t)).length) := by
  obtain ⟨hl, -⟩ := probe_lines hp
  simp only [parseObservation, hp, if_true]
  simp only [runPath]
  rw [if_neg (by omega)]
  simp only [if_true]
  unfold tabularFromParts
  rw [if_pos h13]

/-- C1 (witness): the amended statement at the 11-token candidate. -/
theorem c1_amended_w :
    probeTabular tabC1 = true ∧ (jsSplitWs (lastLineOf tabC1)).length < 13 ∧
      parseObservation (some tabC1) (some narrB) =
        .error (.structural (jsSplitWs (lastLineOf tabC1)).length) :=
  ⟨by decide, by decide, c1_amended tabC1 (some narrB) (by decide) (by decide)⟩

/-- C2 (counterexample): a 15-token last line whose direction token is 360
    yields a record with windDirection 360, violating direction ∈ [0,360). -/
theorem c2_counterexample :
    (tabularFromParts partsC2).toOption.map
        (fun r => decide (0 ≤ r.windDirection ∧ r.windDirection < 360)) = some false :=
  by decide

/-- C2 (amended): for a last line of at least 13 tokens, the record satisfies
    direction ∈ [0,360) and non-negative speeds provided the raw direction
    token parses into [0,360) or equals one of the 99 and at-least-999
    sentinels (or fails to parse), and the raw speed tokens parse
    non-negative (or fail to parse); raw values outside these provisos pass
    through to the output. -/
theorem c2_amended (parts : List String) (h13 : 13 ≤ parts.length)
    (hd : dirRawOk (parseFloatQ (parts.getD 5 "")) = true)
    (hs : speedRawOk (parseFloatQ (parts.getD 6 "")) = true)
    (hg : speedRawOk (parseFloatQ (parts.getD 7 "")) = true) :
    ∃ r, tabularFromParts parts = .ok r ∧
      0 ≤ r.windDirection ∧ r.windDirection < 360 ∧
      0 ≤ r.windSpeed ∧ 0 ≤ r.gustSpeed := by
  unfold tabularFromParts
  rw [if_neg (by omega)]
  refine ⟨_, rfl, ?_, ?_, ?_, ?_⟩
  · rcases ho : parseFloatQ (parts.getD 5 "") with _ | v
    · simp only [ho]
      norm_num
    · rw [ho] at hd
      simp only [dirRawOk, decide_eq_true_eq] at hd
      simp only [ho]
      exact (dirRange v hd).1
  · rcases ho : parseFloatQ (parts.getD 5 "") with _ | v
    · simp only [ho]
      norm_num
    · rw [ho] at hd
      simp only [dirRawOk, decide_eq_true_eq] at hd
      simp only [ho]
      exact (dirRange v hd).2
  · rcases ho : parseFloatQ (parts.getD 6 "") with _ | v
    · simp only [ho]
      norm_num
    · rw [ho] at hs
      simp only [speedRawOk, decide_eq_true_eq] at hs
      simp only [ho]
      exact speedRange _ (round1_nonneg (by positivity))
  · rcases ho : parseFloatQ (parts.getD 7 "") with _ | v
    · simp only [ho]
      norm_num
    · rw [ho] at hg
      simp only [speedRawOk, decide_eq_true_eq] at hg
      simp only [ho]
      exact speedRange _ (round1_nonneg (by positivity))

/-- C2 (witness): the amended statement at scenario A's tokens. -/
theorem c2_amended_w :
    (13 ≤ partsA.length) ∧
      (∃ r, tabularFromParts partsA = .ok r ∧
        0 ≤ r.windDirection ∧ r.windDirection < 360 ∧
        0 ≤ r.windSpeed ∧ 0 ≤ r.gustSpeed) :=
  ⟨by decide, c2_amended partsA (by decide) (by decide) (by decide) (by decide)⟩

/-- C3 (counterexample): the raw wind-speed token 52.0 m/s is below the 99
    sentinel, yet the record's knots value is 0, while the spec-modelled
    raw-sentinel-then-convert computation yields 101.1: the code compares
    the converted value against 99. -/
theorem c3_counterexample :
    (tabularFromParts partsC3).toOption.map (fun r => r.windSpeed) = some 0 ∧
      specSentinelThenConvert "52.0" = 101.1 ∧ ¬ (99 ≤ (52 : ℚ)) :=
  ⟨by decide, by decide, by decide⟩

/-- C3 (amended): the sentinel comparisons run on the already-converted
    knots and Fahrenheit values; a raw speed of at least 99 m/s or a raw
    temperature of at least 999 degrees Celsius still maps to 0 because
    conversion preserves the threshold. -/
theorem c3_amended (parts : List String) (h13 : 13 ≤ parts.length)
    (v g a w : ℚ)
    (hv : parseFloatQ (parts.getD 6 "") = some v)
    (hg : parseFloatQ (parts.getD 7 "") = some g)
    (ha : parseFloatQ (parts.getD 13 "") = some a)
    (hw : parseFloatQ (parts.getD 14 "") = some w)
    (ha0 : a ≠ 0) (hw0 : w ≠ 0) :
    ∃ r, tabularFromParts parts = .ok r ∧
      r.windSpeed = (if 99 ≤ round1 (v * 1.944) then 0 else round1 (v * 1.944)) ∧
      r.gustSpeed = (if 99 ≤ round1 (g * 1.944) then 0 else round1 (g * 1.944)) ∧
      r.airTemp =
        (if 999 ≤ round1 (a * (9 / 5) + 32) then 0 else round1 (a * (9 / 5) + 32)) ∧
      r.waterTemp =
        (if 999 ≤ round1 (w * (9 / 5) + 32) then 0 else round1 (w * (9 / 5) + 32)) ∧
      (99 ≤ v → r.windSpeed = 0) ∧ (99 ≤ g → r.gustSpeed = 0) ∧
      (999 ≤ a → r.airTemp = 0) ∧ (999 ≤ w → r.waterTemp = 0) := by
  unfold tabularFromParts
  rw [if_neg (by omega)]
  refine ⟨_, rfl, ?_, ?_, ?_, ?_, ?_, ?_, ?_, ?_⟩
  · simp only [hv]
  · simp only [hg]
  · simp only [ha, if_neg ha0]
  · simp only [hw, if_neg hw0]
  · intro h99
    simp only [hv]
    rw [if_pos (round1_ge99 h99)]
  · intro h99
    simp only [hg]
    rw [if_pos (round1_ge99 h99)]
  · intro h999
    simp only [ha, if_neg ha0]
    rw [if_pos (round1_ge999 h999)]
  · intro h999
    simp only [hw, if_neg hw0]
    rw [if_pos (round1_ge999 h999)]

/-- C3 (witness): the amended statement at scenario A's tokens. -/
theorem c3_amended_w :
    (13 ≤ partsA.length) ∧
      (∃ r, tabularFromParts partsA = .ok r ∧
        r.windSpeed =
          (if 99 ≤ round1 ((4.1 : ℚ) * 1.944) then 0 else round1 ((4.1 : ℚ) * 1.944)) ∧
        r.gustSpeed =
          (if 99 ≤ round1 ((7.2 : ℚ) * 1.944) then 0 else round1 ((7.2 : ℚ) * 1.944)) ∧
        r.airTemp =
          (if 999 ≤ round1 ((18 : ℚ) * (9 / 5) + 32) then 0
            else round1 ((18 : ℚ) * (9 / 5) + 32)) ∧
        r.waterTemp =
          (if 999 ≤ round1 ((16.5 : ℚ) * (9 / 5) + 32) then 0
            else round1 ((16.5 : ℚ) * (9 / 5) + 32)) ∧
        (99 ≤ (4.1 : ℚ) → r.windSpeed = 0) ∧ (99 ≤ (7.2 : ℚ) → r.gustSpeed = 0) ∧
        (999 ≤ (18 : ℚ) → r.airTemp = 0) ∧ (999 ≤ (16.5 : ℚ) → r.waterTemp = 0)) :=
  ⟨by decide, c3_amended partsA (by decide) 4.1 7.2 18 16.5 (by decide) (by decide)
    (by decide) (by decide) (by decide) (by decide)⟩

/-- C4 (counterexample): the second line of the text matches the timestamp
    pattern, yet the invocation fails with the terminal missing-timestamp
    error, because the first line containing GMT does not match. -/
theorem c4_counterexample :
    gmtScan ("2348 GMT 11/16/25".toList) = some ("2348", "11", "16", "25") ∧
      (splitLines (jsTrim narrC4)).getD 1 "" = "2348 GMT 11/16/25" ∧
      parseObservation none (some narrC4) = .error .missingTimestamp :=
  ⟨by decide, by decide, by decide⟩

lemma narrTimestampOf_none_iff (lines : List String) :
    narrTimestampOf lines = none ↔
      ∀ l, lines.find? (fun s => containsStr "GMT" s) = some l → gmtScan l.toList = none := by
  unfold narrTimestampOf
  rcases hf : lines.find? (fun s => containsStr "GMT" s) with _ | l
  · simp
  · rcases hg : gmtScan l.data with _ | ⟨t, mo, dy, yr⟩
    · simp [hg]
    · simp [hg]

lemma narrativeFromLines_error_iff (lines : List String) :
    narrativeFromLines lines = .error .missingTimestamp ↔
      narrTimestampOf lines = none := by
  unfold narrativeFromLines
  rcases h : narrTimestampOf lines with _ | dt <;> simp

/-- C4 (amended): the narrative path raises the terminal missing-timestamp
    error if and only if the first line containing GMT — when one exists —
    fails the HHMM GMT MM/DD/YY pattern; a matching line that is not the
    first GMT-containing line does not prevent the error. -/
theorem c4_amended (lines : List String) :
    narrativeFromLines lines = .error .missingTimestamp ↔
      ∀ l, lines.find? (fun s => containsStr "GMT" s) = some l → gmtScan l.toList = none :=
  (narrativeFromLines_error_iff lines).trans (narrTimestampOf_none_iff lines)

/-- C5 (counterexample): the air-temperature token 0.0 degrees Celsius is
    parsed to 0, which the code's truthiness guard conflates with missing
    data: the output is 0, not the 32.0 the conversion formula gives. -/
theorem c5_counterexample :
    (tabularFromParts partsC5).toOption.map (fun r => r.airTemp) = some 0 ∧
      parseFloatQ "0.0" = some 0 ∧
      round1 ((0 : ℚ) * (9 / 5) + 32) = 32 ∧ ¬ ((0 : ℚ) = 32) :=
  ⟨by decide, by decide, by decide, by decide⟩

/-- C5 (amended): for a temperature token parsing to a nonzero Celsius value
    whose converted value stays below the 999 sentinel, the output equals
    round (c * 9 / 5 + 32, 1); a token parsing to 0 yields output 0, not
    32.0. -/
theorem c5_amended (parts : List String) (h13 : 13 ≤ parts.length) (a w : ℚ)
    (ha : parseFloatQ (parts.getD 13 "") = some a)
    (hw : parseFloatQ (parts.getD 14 "") = some w)
    (ha0 : a ≠ 0) (hw0 : w ≠ 0)
    (haS : round1 (a * (9 / 5) + 32) < 999)
    (hwS : round1 (w * (9 / 5) + 32) < 999) :
    ∃ r, tabularFromParts parts = .ok r ∧
      r.airTemp = round1 (a * (9 / 5) + 32) ∧
      r.waterTemp = round1 (w * (9 / 5) + 32) := by
  unfold tabularFromParts
  rw [if_neg (by omega)]
  refine ⟨_, rfl, ?_, ?_⟩
  · simp only [ha, if_neg ha0]
    rw [if_neg (not_le.mpr haS)]
  · simp only [hw, if_neg hw0]
    rw [if_neg (not_le.mpr hwS)]

/-- C5 (witness): the amended statement at scenario A's tokens, where 18
    degrees Celsius becomes 64.4 Fahrenheit. -/
theorem c5_amended_w :
    (13 ≤ partsA.length) ∧
      (∃ r, tabularFromParts partsA = .ok r ∧
        r.airTemp = round1 ((18 : ℚ) * (9 / 5) + 32) ∧
        r.waterTemp = round1 ((16.5 : ℚ) * (9 / 5) + 32)) ∧
      round1 ((18 : ℚ) * (9 / 5) + 32) = 64.4 :=
  ⟨by decide,
   c5_amended partsA (by decide) 18 16.5 (by decide) (by decide) (by decide) (by decide)
     (by decide) (by decide),
   by decide⟩

/-- C6 (counterexample): the code multiplies by 1.944, not 1.943844; at
    25.747 m/s the two constants round to different one-decimal values,
    50.1 versus 50.0. -/
theorem c6_counterexample :
    (tabularFromParts partsC6).toOption.map (fun r => r.windSpeed) = some 50.1 ∧
      parseFloatQ "25.747" = some 25.747 ∧
      specMsToKt 25.747 = 50 ∧ ¬ ((50.1 : ℚ) = 50) :=
  ⟨by decide, by decide, by decide, by decide⟩

/-- C6 (amended): for speed tokens parsing to v and g whose converted values
    stay below the 99 sentinel, wind and gust become round (v * 1.944, 1)
    and round (g * 1.944, 1). -/
theorem c6_amended (parts : List String) (h13 : 13 ≤ parts.length) (v g : ℚ)
    (hv : parseFloatQ (parts.getD 6 "") = some v)
    (hg : parseFloatQ (parts.getD 7 "") = some g)
    (hvS : round1 (v * 1.944) < 99) (hgS : round1 (g * 1.944) < 99) :
    ∃ r, tabularFromParts parts = .ok r ∧
      r.windSpeed = round1 (v * 1.944) ∧ r.gustSpeed = round1 (g * 1.944) := by
  unfold tabularFromParts
  rw [if_neg (by omega)]
  refine ⟨_, rfl, ?_, ?_⟩
  · simp only [hv]
    rw [if_neg (not_le.mpr hvS)]
  · simp only [hg]
    rw [if_neg (not_le.mpr hgS)]

/-- C6 (witness): the amended statement at scenario A's tokens, and the
    spec's example value 4.1 m/s indeed becomes 8.0 kt. -/
theorem c6_amended_w :
    (13 ≤ partsA.length) ∧
      (∃ r, tabularFromParts partsA = .ok r ∧
        r.windSpeed = round1 ((4.1 : ℚ) * 1.944) ∧
        r.gustSpeed = round1 ((7.2 : ℚ) * 1.944)) ∧
      round1 ((4.1 : ℚ) * 1.944) = 8 :=
  ⟨by decide,
   c6_amended partsA (by decide) 4.1 7.2 (by decide) (by decide) (by decide) (by decide),
   by decide⟩

/-- C7 (counterexample): a last line of 10 whitespace-separated tokens that
    begins with a space splits into 11 JS fields, so the probe accepts the
    candidate and the invocation surfaces the structural error instead of
    returning the narrative parser's result. -/
theorem c7_counterexample :
    (wsTokens (lastLineOf tabC7)).length = 10 ∧
      parseObservation (some tabC7) (some narrB) = .error (.structural 11) ∧
      narrativeEntry (some narrB) = .ok recB :=
  ⟨by decide, by decide, by decide⟩

/-- C7 (amended): when the last line neither starts nor ends with whitespace
    and has fewer than 11 tokens, the probe rejects the tabular candidate
    and the invocation returns the narrative path's result, with no
    structural error. -/
theorem c7_amended (t : String) (n? : Option String)
    (h1 : startsWs (lastLineOf t) = false) (h2 : endsWs (lastLineOf t) = false)
    (h3 : (wsTokens (lastLineOf t)).length < 11) :
    parseObservation (some t) n? = narrativeEntry n? := by
  have hp : probeTabular t = false := by
    unfold probeTabular
    have hlen : (jsSplitWs (lastLineOf t)).length < 11 := by
      unfold jsSplitWs
      split
      · simp
      · rw [h1, h2]
        simpa using h3
    have hd : decide (10 < (jsSplitWs (lastLineOf t)).length) = false :=
      decide_eq_false (by omega)
    rw [hd, Bool.and_false]
  simp only [parseObservation, hp]
  rfl

/-- C7 (witness): the amended statement at a clean 5-token candidate. -/
theorem c7_amended_w :
    startsWs (lastLineOf tabC7w) = false ∧ endsWs (lastLineOf tabC7w) = false ∧
      (wsTokens (lastLineOf tabC7w)).length < 11 ∧
      parseObservation (some tabC7w) (some narrB) = narrativeEntry (some narrB) :=
  ⟨by decide, by decide, by decide,
   c7_amended tabC7w (some narrB) (by decide) (by decide) (by decide)⟩

/-- C8 (confirmed): spec scenario B — the narrative text yields exactly the
    promised record. -/
theorem c8_scenarioB : parseObservation none (some narrB) = .ok recB := by decide

/-- C9 (counterexample): the Wind: line carries the speed token 8.0 kt after
    the marker (as the spec-modelled extractor shows), but without a
    preceding comma the code's regex fails and windSpeed is 0 instead of
    8.0. -/
theorem c9_counterexample :
    specWindSpeedAfterMarker "Wind: S (180°) 8.0 kt" = some 8 ∧
      parseObservation none (some narrC9) =
        .ok { datetime := "2025-11-16T23:48:00Z", windDirection := 180, windSpeed := 0,
              gustSpeed := 0, pressure := 0, airTemp := 0, waterTemp := 0 } :=
  ⟨by decide, by decide⟩

/-- C9 (amended): on the narrative path the direction comes from the
    leftmost parenthesized digit group of the first Wind: line (degree sign
    optional), the speed from its leftmost comma-value-kt pattern, and the
    gust from the first Gust: line; any absent sub-pattern leaves that field
    0 while the others are still extracted. -/
theorem c9_amended (lines : List String) (r : WindData)
    (h : narrativeFromLines lines = .ok r) :
    r.windDirection = narrDirField lines ∧ r.windSpeed = narrSpeedField lines ∧
      r.gustSpeed = narrGustField lines := by
  unfold narrativeFromLines at h
  rcases hts : narrTimestampOf lines with _ | dt
  · rw [hts] at h
    exact absurd h (by simp)
  · rw [hts] at h
    simp only [Except.ok.injEq] at h
    subst h
    exact ⟨rfl, rfl, rfl⟩

/-- C9 (witness): the amended statement at scenario B's lines. -/
theorem c9_amended_w :
    narrativeFromLines linesB = .ok recB ∧
      recB.windDirection = narrDirField linesB ∧
      recB.windSpeed = narrSpeedField linesB ∧
      recB.gustSpeed = narrGustField linesB :=
  ⟨by decide, c9_amended linesB recB (by decide)⟩

/-- C10 (confirmed): a tabular candidate that trims to at most one line is
    rejected by the probe whatever its token count, and a narrative text of
    fewer than two lines fails with the not-enough-data-lines error before
    any timestamp extraction. -/
theorem c10_two_line_minimum (t n : String) :
    ((splitLines (jsTrim t)).length ≤ 1 → probeTabular t = false) ∧
      ((splitLines (jsTrim n)).length < 2 →
        parseObservation none (some n) =
          .error (.notEnoughLines (splitLines (jsTrim n)).length)) := by
  constructor
  · intro h
    unfold probeTabular
    have hd : decide (1 < (splitLines (jsTrim t)).length) = false :=
      decide_eq_false (by omega)
    rw [hd, Bool.false_and]
  · intro h
    show runPath false n = _
    simp only [runPath]
    rw [if_pos h]

/-- C10 (witness): a one-line 15-token tabular candidate is rejected, and a
    one-line narrative text whose only line is a valid GMT timestamp line
    fails with the not-enough-lines error, not the missing-timestamp one. -/
theorem c10_two_line_minimum_w :
    probeTabular tabC10 = false ∧
      parseObservation none (some narrC10) = .error (.notEnoughLines 1) :=
  ⟨(c10_two_line_minimum tabC10 narrC10).1 (by decide),
   (c10_two_line_minimum tabC10 narrC10).2 (by decide)⟩

end WindLA
